import Mathlib

/-!
Shallow embedding of the agent-based COVID-19 social-dilemma simulation
(`model.py`) and verification of its specification.

The repository's `model.py` defines the infection/quarantine state enums, a
family of module-level aggregate query functions over `model.schedule.agents`,
and the `MainModel` class (construction, `step`, and grid-scanning query
methods).  The agent class `MainAgent` lives in `agent.py`, which is not part
of the sources here; the parts of its behaviour that the claims need (its
constructor defaults and the frame of the per-tick scheduler pass) are
modelled from the specification and are marked as such below.

Numeric conventions: Python floats are embedded as `ℚ` (the arithmetic in the
claims is exact: sums, quotients and comparisons of small rationals); Python
ints as `ℕ`.  A Python function that can raise is embedded with an `Option`
result (`none` = an exception escapes), and a `try/except` that returns a
default simply produces that default on the exceptional branch.
-/

/-- `InfectionState(enum.IntEnum)` from `model.py` lines 16-21:
CLEAN = 0, INFECTED = 1, RECOVERED = 2, DEAD = 3. -/
inductive InfectionState where
  | CLEAN
  | INFECTED
  | RECOVERED
  | DEAD
deriving DecidableEq, Repr

/-- `QuarantineState(enum.IntEnum)` from `model.py` lines 24-27:
QUARANTINE = 3, FREE = 4. -/
inductive QuarantineState where
  | QUARANTINE
  | FREE
deriving DecidableEq, Repr

/-- The four-action probability table keyed by
"Stay In" / "Party" / "Buy grocery" / "Help elderly".  Used both for an
agent's `action_prob` dictionary and for the model's
`action_infection_prob` dictionary (`model.py` lines 187-192). -/
structure ActionProbs where
  stayIn : ℚ
  party : ℚ
  buyGrocery : ℚ
  helpElderly : ℚ
deriving DecidableEq, Repr

/-- The fields of `MainAgent` (from `agent.py`, not in the sources) that
`model.py` and `server.py` read: `unique_id`, `pos`, `infectionstate`,
`quarantinestate`, `infected_time`, `aspiration`, `action_prob`,
`action_done`. -/
structure MainAgent where
  unique_id : ℕ
  pos : ℕ × ℕ
  infectionstate : InfectionState
  quarantinestate : QuarantineState
  infected_time : ℕ
  aspiration : ℚ
  action_prob : ActionProbs
  action_done : List String
deriving DecidableEq, Repr

/-- The state of a `MainModel` instance (`model.py` lines 167-229).
`grid` is the `SingleGrid`: one cell per coordinate, each holding at most one
agent (`cell[0]` in `coord_iter`).  `schedule` is the list of agents added to
the `RandomActivation` scheduler, in insertion order. -/
structure ModelState where
  population_density : ℚ
  death_rate : ℚ
  width : ℕ
  height : ℕ
  transfer_rate : ℚ
  initial_infection_rate : ℚ
  recovery_days : ℕ
  dead_agents_number : ℕ
  government_action_threshold : ℚ
  government_stringent : ℚ
  lockdown : Bool
  quarantine_prob : ℚ
  habituation : ℚ
  learning_rate : ℚ
  global_aspiration : ℚ
  action_count : ℕ
  action_infection_prob : ActionProbs
  step_counter : ℕ
  dilemma_list : List ℚ
  stay_in_list : List ℚ
  stay_out_list : List ℚ
  steps_list : List ℕ
  aspiration_list : List ℚ
  infection_list : List ℚ
  grid : List (Option MainAgent)
  schedule : List MainAgent
  total_population : ℕ
  running : Bool
deriving DecidableEq, Repr

/-! ## Module-level query functions (`model.py` lines 30-129)

These scan `model.schedule.agents`. -/

/-- `get_susceptible_number(model)` (`model.py` lines 30-37): length of the
list of scheduled agents whose `infectionstate` is CLEAN. -/
def get_susceptible_number (m : ModelState) : ℕ :=
  (m.schedule.filter (fun a => a.infectionstate == InfectionState.CLEAN)).length

/-- `get_infected_number(model)` (`model.py` lines 40-47). -/
def get_infected_number (m : ModelState) : ℕ :=
  (m.schedule.filter (fun a => a.infectionstate == InfectionState.INFECTED)).length

/-- `get_recovered_number(model)` (`model.py` lines 50-57). -/
def get_recovered_number (m : ModelState) : ℕ :=
  (m.schedule.filter (fun a => a.infectionstate == InfectionState.RECOVERED)).length

/-- `get_dead_number(model)` (`model.py` lines 60-65): returns the
`dead_agents_number` counter. -/
def get_dead_number (m : ModelState) : ℕ :=
  m.dead_agents_number

/-- `get_stay_in(model)` (`model.py` lines 68-78).  The list comprehension
reads `a.action_done[-1]` for every scheduled agent; if any agent's history
is empty that read raises `IndexError`, the `except` catches it and the
function returns 0.  Otherwise it counts agents whose last action is
"Stay In". -/
def get_stay_in (m : ModelState) : ℕ :=
  if m.schedule.any (fun a => a.action_done.isEmpty) then 0
  else (m.schedule.filter (fun a => a.action_done.getLastD "" == "Stay In")).length

/-- `get_go_out(model)` (`model.py` lines 81-91): same exception structure as
`get_stay_in`, counting agents whose last action is not "Stay In". -/
def get_go_out (m : ModelState) : ℕ :=
  if m.schedule.any (fun a => a.action_done.isEmpty) then 0
  else (m.schedule.filter (fun a => !(a.action_done.getLastD "" == "Stay In"))).length

/-- `get_average_aspiration(model)` (`model.py` lines 94-102).  Despite its
name and docstring ("average aspiration of all the agents"), the function
returns `sum(aspiration_list)` with no division.  It never raises. -/
def get_average_aspiration (m : ModelState) : ℚ :=
  (m.schedule.map (fun a => a.aspiration)).sum

/-- `get_average_stay_in(model)` (`model.py` lines 105-114).  The loop
variable `i` of `enumerate` ends at `len - 1` and the function returns
`sum(stay_in_list) / i`.  There is no `try/except` here, so:
with 0 agents `i` is unbound and a `NameError` escapes (`none`); with 1 agent
`i = 0` and a `ZeroDivisionError` escapes (`none`); with `n ≥ 2` agents the
result is the sum of the "Stay In" probabilities divided by `n - 1`. -/
def get_average_stay_in (m : ModelState) : Option ℚ :=
  if m.schedule.length ≤ 1 then none
  else some ((m.schedule.map (fun a => a.action_prob.stayIn)).sum
    / ((m.schedule.length : ℚ) - 1))

/-- `get_average_go_out(model)` (`model.py` lines 117-129): same shape as
`get_average_stay_in` with the summand
`a.action_prob["Party"] + a.action_prob["Help elderly"] + a.action_prob["Buy grocery"]`. -/
def get_average_go_out (m : ModelState) : Option ℚ :=
  if m.schedule.length ≤ 1 then none
  else some ((m.schedule.map
      (fun a => a.action_prob.party + a.action_prob.helpElderly + a.action_prob.buyGrocery)).sum
    / ((m.schedule.length : ℚ) - 1))

/-! ## `MainModel` query methods (`model.py` lines 270-353) -/

/-- `MainModel.get_stay_in_number` (`model.py` lines 270-280): same
`try/except` structure as module-level `get_stay_in`. -/
def MainModel.get_stay_in_number (m : ModelState) : ℕ :=
  if m.schedule.any (fun a => a.action_done.isEmpty) then 0
  else (m.schedule.filter (fun a => a.action_done.getLastD "" == "Stay In")).length

/-- `MainModel.get_stay_out_number` (`model.py` lines 282-292). -/
def MainModel.get_stay_out_number (m : ModelState) : ℕ :=
  if m.schedule.any (fun a => a.action_done.isEmpty) then 0
  else (m.schedule.filter (fun a => !(a.action_done.getLastD "" == "Stay In"))).length

/-- `MainModel.get_avg_aspiration` (`model.py` lines 294-305).  The body sums
`a.aspiration` over `enumerate(self.schedule.agents)` and returns
`total_aspiration / i`, wrapped in `try/except` returning 0.  With 0 agents
the unbound `i` raises and 0 is returned; with 1 agent `i = 0` and the
`ZeroDivisionError` is caught, returning 0 (Lean's `x / 0 = 0` on `ℚ` gives
the same value, so a single formula covers every branch); with `n ≥ 2` agents
the result is the aspiration sum divided by `n - 1`. -/
def MainModel.get_avg_aspiration (m : ModelState) : ℚ :=
  if m.schedule.isEmpty then 0
  else (m.schedule.map (fun a => a.aspiration)).sum / ((m.schedule.length : ℚ) - 1)

/-- `MainModel.get_susceptible_number` (`model.py` lines 307-318): scans
every grid cell, counting occupied cells whose agent is CLEAN. -/
def MainModel.get_susceptible_number (m : ModelState) : ℕ :=
  ((m.grid.filterMap id).filter (fun a => a.infectionstate == InfectionState.CLEAN)).length

/-- `MainModel.get_infection_number` (`model.py` lines 320-332). -/
def MainModel.get_infection_number (m : ModelState) : ℕ :=
  ((m.grid.filterMap id).filter (fun a => a.infectionstate == InfectionState.INFECTED)).length

/-- `MainModel.get_recovered_number` (`model.py` lines 334-346). -/
def MainModel.get_recovered_number (m : ModelState) : ℕ :=
  ((m.grid.filterMap id).filter (fun a => a.infectionstate == InfectionState.RECOVERED)).length

/-- `MainModel.get_dead_number` (`model.py` lines 348-353). -/
def MainModel.get_dead_number (m : ModelState) : ℕ :=
  m.dead_agents_number

/-! ## `MainModel.step` (`model.py` lines 252-268)

The body is:
```
self.step_counter = self.step_counter + 1
self.datacollector.collect(self)
self.schedule.step()
if ((self.get_infection_number() / self.total_population)
        > self.government_action_threshold):
    self.lockdown = True
if ((self.get_recovered_number() + self.get_dead_number() + self.get_susceptible_number())
        == self.total_population):
    self.running = False
```

`self.datacollector.collect(self)` evaluates every model reporter registered
at lines 231-250; the reporters `get_average_stay_in` and
`get_average_go_out` raise whenever the schedule holds at most one agent
(see `get_average_stay_in` above), so for such states the exception escapes
`step()` after the `step_counter` increment and nothing further happens.
Likewise `self.get_infection_number() / self.total_population` raises
`ZeroDivisionError` when `total_population = 0`.  `step` therefore returns a
`StepResult`: the state reached, together with `ok = false` when an
exception escaped partway through. -/

/-- Result of one `MainModel.step()` call: `ok = false` means a Python
exception escaped the call, and `state` is the (partially mutated) model
state at that point. -/
structure StepResult where
  ok : Bool
  state : ModelState
deriving DecidableEq, Repr

/-- The datacollector pass raises iff the schedule holds at most one agent
(`get_average_stay_in` / `get_average_go_out`: `NameError` on 0 agents,
`ZeroDivisionError` on 1 agent; every other reporter is total). -/
def MainModel.collectRaises (m : ModelState) : Bool :=
  m.schedule.length ≤ 1

/-- Modelled from the spec: the per-agent behaviour run by
`self.schedule.step()` lives in `agent.py` (`MainAgent.step`), which is not
among the sources.  Per spec sections 4.1-4.2 and 5, one scheduler pass
mutates only the agents' own state (held in the schedule and, by aliasing,
in the grid cells), the `deadAgentsNumber` counter, and possibly the
graphing/metrics lists; global parameters, `lockdown`, `running`,
`step_counter` and `total_population` are untouched during the pass.
A `SchedEffects` value is everything one pass may produce. -/
structure SchedEffects where
  schedule : List MainAgent
  grid : List (Option MainAgent)
  dead_agents_number : ℕ
  dilemma_list : List ℚ
  stay_in_list : List ℚ
  stay_out_list : List ℚ
  steps_list : List ℕ
  aspiration_list : List ℚ
  infection_list : List ℚ

/-- Modelled from the spec: apply the effects of one scheduler pass
(`self.schedule.step()`) to the model state. -/
def MainModel.applySchedule (f : ModelState → SchedEffects) (m : ModelState) : ModelState :=
  { m with
    schedule := (f m).schedule
    grid := (f m).grid
    dead_agents_number := (f m).dead_agents_number
    dilemma_list := (f m).dilemma_list
    stay_in_list := (f m).stay_in_list
    stay_out_list := (f m).stay_out_list
    steps_list := (f m).steps_list
    aspiration_list := (f m).aspiration_list
    infection_list := (f m).infection_list }

/-- The lockdown check (`model.py` lines 259-263): set `lockdown` to true
when `get_infection_number() / total_population` strictly exceeds
`government_action_threshold` (the quotient is real division on `ℚ`). -/
def MainModel.lockdownCheck (m : ModelState) : ModelState :=
  if (MainModel.get_infection_number m : ℚ) / (m.total_population : ℚ)
      > m.government_action_threshold then
    { m with lockdown := true }
  else m

/-- The termination check (`model.py` lines 265-268): clear `running` when
`get_recovered_number() + get_dead_number() + get_susceptible_number()`
equals `total_population`. -/
def MainModel.terminationCheck (m : ModelState) : ModelState :=
  if MainModel.get_recovered_number m + MainModel.get_dead_number m
      + MainModel.get_susceptible_number m = m.total_population then
    { m with running := false }
  else m

/-- `MainModel.step` (`model.py` lines 252-268), parametrised by the
spec-modelled scheduler pass `f` (see `SchedEffects`). -/
def MainModel.step (f : ModelState → SchedEffects) (m : ModelState) : StepResult :=
  let m1 := { m with step_counter := m.step_counter + 1 }
  if MainModel.collectRaises m1 then ⟨false, m1⟩
  else
    let m2 := MainModel.applySchedule f m1
    if m2.total_population = 0 then ⟨false, m2⟩
    else ⟨true, MainModel.terminationCheck (MainModel.lockdownCheck m2)⟩

/-! ## `MainModel.__init__` (`model.py` lines 141-229)

Construction places one agent per grid cell with probability
`population_density`, drawing `self.random.random()` — the random source the
`mesa.Model` base class owns for this model instance (the Controller-owned
source).  Each placed agent is then seeded as infected with probability
`initial_infection_rate`, drawing `np.random.choice([0, 1], p=[...])` — the
global numpy random source, a second, independent source.  We embed each
source as a stream of draws in `[0, 1)` consumed left to right (a draw `d`
realises a Bernoulli(`p`) success iff `d < p`, the inverse-CDF view of both
`random.random() < p` and `np.random.choice` with weights `[1-p, p]`). -/

/-- The constructor parameters of `MainModel.__init__` (`model.py` lines
141-144), with the Python default values `recovery_days=11`,
`habituation=0.1`, `learning_rate=0.1` supplied explicitly. -/
structure Params where
  population_density : ℚ
  death_rate : ℚ
  transfer_rate : ℚ
  initial_infection_rate : ℚ
  width : ℕ
  height : ℕ
  government_stringent : ℚ
  government_action_threshold : ℚ
  global_aspiration : ℚ
  recovery_days : ℕ
  habituation : ℚ
  learning_rate : ℚ
deriving DecidableEq, Repr

/-- The two pseudo-random sources construction actually draws from:
`ctrl n` is the `n`-th draw of the Controller-owned source (`self.random`,
seeded per model instance) and `glob n` is the `n`-th draw of the global
numpy source (`np.random`), each a value in `[0, 1)`. -/
structure RandomSources where
  ctrl : ℕ → ℚ
  glob : ℕ → ℚ

/-- Modelled from the spec: `MainAgent.__init__` is in `agent.py`, which is
not among the sources.  Per spec section 3 a fresh agent starts Clean with an
empty action history, its aspiration at the population's initial global
aspiration, and its four action probabilities a distribution summing to 1
(uniform here); `quarantinestate` defaults to Free (spec: only meaningful
while Infected, and `server.py` reads it for every agent). -/
def MainAgent.init (i : ℕ) (xy : ℕ × ℕ) (global_aspiration : ℚ) : MainAgent :=
  { unique_id := i
    pos := xy
    infectionstate := InfectionState.CLEAN
    quarantinestate := QuarantineState.FREE
    infected_time := 0
    aspiration := global_aspiration
    action_prob := ⟨1/4, 1/4, 1/4, 1/4⟩
    action_done := [] }

/-- The loop state of the construction loop (`model.py` lines 206-225):
agents added to the schedule so far, grid cells built so far, the agent
counter `i`, and how many draws each random source has consumed. -/
structure InitState where
  agents : List MainAgent
  grid : List (Option MainAgent)
  i : ℕ
  ci : ℕ
  gi : ℕ
deriving Repr

/-- One iteration of `for cell in self.grid.coord_iter()` (`model.py` lines
209-225): draw `self.random.random()` and compare with
`population_density`; on success create the agent and call
`np.random.choice([0, 1], p=[1 - rate, rate])` against
`initial_infection_rate` to possibly seed it infected (setting
`infectionstate = INFECTED`, `quarantinestate = FREE`,
`infected_time = self.schedule.time`, which is 0 during construction),
position it on the grid and add it to the schedule.

`np.random.choice` validates its weights before drawing: when
`initial_infection_rate` lies outside [0, 1] one of the two weights is
negative and the call raises `ValueError`, aborting the whole constructor —
embedded as a `none` result.  The check happens only when an agent is
actually placed; an empty placement never reaches the numpy call. -/
def initCell (p : Params) (rs : RandomSources) (st : InitState) (xy : ℕ × ℕ) :
    Option InitState :=
  if rs.ctrl st.ci < p.population_density then
    if p.initial_infection_rate < 0 ∨ 1 < p.initial_infection_rate then
      none
    else
      let base := MainAgent.init st.i xy p.global_aspiration
      let agent :=
        if rs.glob st.gi < p.initial_infection_rate then
          { base with
            infectionstate := InfectionState.INFECTED
            quarantinestate := QuarantineState.FREE
            infected_time := 0 }
        else base
      some { agents := st.agents ++ [agent]
             grid := st.grid ++ [some agent]
             i := st.i + 1
             ci := st.ci + 1
             gi := st.gi + 1 }
  else
    some { st with grid := st.grid ++ [none], ci := st.ci + 1 }

/-- The cell coordinates `SingleGrid.coord_iter` yields, one per cell of a
`width × height` grid. -/
def gridCoords (width height : ℕ) : List (ℕ × ℕ) :=
  (List.range width).flatMap (fun x => (List.range height).map (fun y => (x, y)))

/-- `MainModel.__init__` (`model.py` lines 141-229): store the parameters
and the literal constants (`dead_agents_number = 0`, `lockdown = False`,
`quarantine_prob = 0.3`, `action_count = 4`, the `action_infection_prob`
table, `step_counter = 0`, the six empty metrics lists), run the placement
loop over every grid cell, set `total_population` to the final agent counter
and `running = True`.  The body itself validates nothing; the only failure
during construction is the `ValueError` that `np.random.choice` raises from
inside the loop when `initial_infection_rate` is out of range and an agent
is placed (see `initCell`), embedded as a `none` result. -/
def MainModel.init (p : Params) (rs : RandomSources) : Option ModelState :=
  ((gridCoords p.width p.height).foldlM (initCell p rs) ⟨[], [], 0, 0, 0⟩).map fun st =>
  { population_density := p.population_density
    death_rate := p.death_rate
    width := p.width
    height := p.height
    transfer_rate := p.transfer_rate
    initial_infection_rate := p.initial_infection_rate
    recovery_days := p.recovery_days
    dead_agents_number := 0
    government_action_threshold := p.government_action_threshold
    government_stringent := p.government_stringent
    lockdown := false
    quarantine_prob := 3/10
    habituation := p.habituation
    learning_rate := p.learning_rate
    global_aspiration := p.global_aspiration
    action_count := 4
    action_infection_prob := ⟨1/10, 7/10, 1/2, 1/2⟩
    step_counter := 0
    dilemma_list := []
    stay_in_list := []
    stay_out_list := []
    steps_list := []
    aspiration_list := []
    infection_list := []
    grid := st.grid
    schedule := st.agents
    total_population := st.i
    running := true }

/-- The model state reached right after the scheduler pass inside
`MainModel.step` (line 257), before the lockdown and termination checks:
the `step_counter` increment followed by the scheduler pass. -/
def MainModel.stepMid (f : ModelState → SchedEffects) (m : ModelState) : ModelState :=
  MainModel.applySchedule f { m with step_counter := m.step_counter + 1 }

/-! ## Test fixtures

Concrete agents, model states, parameter sets and random sources used as
witnesses and counterexamples below. -/

/-- A concrete agent fixture. -/
def mkAgent (i : ℕ) (st : InfectionState) (asp : ℚ) (stayInProb : ℚ)
    (hist : List String) : MainAgent :=
  { unique_id := i
    pos := (i, 0)
    infectionstate := st
    quarantinestate := QuarantineState.FREE
    infected_time := 0
    aspiration := asp
    action_prob := ⟨stayInProb, 1/6, 1/6, 1/6⟩
    action_done := hist }

/-- A concrete model state fixture holding the given schedule, grid and
population, with slider-range parameter values. -/
def mkState (sched : List MainAgent) (grid : List (Option MainAgent)) (total : ℕ) : ModelState :=
  { population_density := 1/2
    death_rate := 1/50
    width := 2
    height := 2
    transfer_rate := 3/10
    initial_infection_rate := 1/50
    recovery_days := 11
    dead_agents_number := 0
    government_action_threshold := 1/4
    government_stringent := 1/2
    lockdown := false
    quarantine_prob := 3/10
    habituation := 1/10
    learning_rate := 1/10
    global_aspiration := 3/10
    action_count := 4
    action_infection_prob := ⟨1/10, 7/10, 1/2, 1/2⟩
    step_counter := 0
    dilemma_list := []
    stay_in_list := []
    stay_out_list := []
    steps_list := []
    aspiration_list := []
    infection_list := []
    grid := grid
    schedule := sched
    total_population := total
    running := true }

/-- A scheduler pass that leaves every agent and counter unchanged (one
admissible instance of the spec-modelled pass). -/
def idPass (m : ModelState) : SchedEffects :=
  ⟨m.schedule, m.grid, m.dead_agents_number, m.dilemma_list, m.stay_in_list,
    m.stay_out_list, m.steps_list, m.aspiration_list, m.infection_list⟩

/-! ## Helper lemmas -/

/-- If every scheduled agent has an empty action history, then either the
schedule is empty or the `a.action_done[-1]` read raises on some agent. -/
lemma schedule_empty_or_any_empty {l : List MainAgent}
    (h : ∀ a ∈ l, a.action_done = []) :
    l = [] ∨ l.any (fun a => a.action_done.isEmpty) = true := by
  cases l with
  | nil => exact Or.inl rfl
  | cons a t =>
      right
      simp only [List.any_cons, Bool.or_eq_true]
      left
      simp [h a (List.mem_cons_self a t)]

/-- Claim C10: for every model state in which every agent's action history
(`action_done`) is empty — in particular immediately after construction,
before the first step — the stay-in and go-out count queries
(`get_stay_in`, `get_go_out`, `MainModel.get_stay_in_number`,
`MainModel.get_stay_out_number`) all return 0 rather than raising, because
the `IndexError` from reading the last element of an empty history is
caught by the surrounding `try/except`. -/
theorem empty_history_counts_zero (m : ModelState)
    (h : ∀ a ∈ m.schedule, a.action_done = []) :
    get_stay_in m = 0 ∧ get_go_out m = 0 ∧
    MainModel.get_stay_in_number m = 0 ∧ MainModel.get_stay_out_number m = 0 := by
  rcases schedule_empty_or_any_empty h with hnil | hany
  · simp [get_stay_in, get_go_out, MainModel.get_stay_in_number,
      MainModel.get_stay_out_number, hnil]
  · simp [get_stay_in, get_go_out, MainModel.get_stay_in_number,
      MainModel.get_stay_out_number, hany]

/-- Witness for C10: a freshly-constructed-style state with two agents whose
histories are empty; all four counts evaluate to 0. -/
theorem empty_history_counts_zero_witness :
    (∀ a ∈ (mkState [mkAgent 0 InfectionState.CLEAN 1 (1/2) [],
        mkAgent 1 InfectionState.INFECTED 1 (1/2) []] [] 2).schedule,
      a.action_done = []) ∧
    (get_stay_in (mkState [mkAgent 0 InfectionState.CLEAN 1 (1/2) [],
        mkAgent 1 InfectionState.INFECTED 1 (1/2) []] [] 2) = 0 ∧
     get_go_out (mkState [mkAgent 0 InfectionState.CLEAN 1 (1/2) [],
        mkAgent 1 InfectionState.INFECTED 1 (1/2) []] [] 2) = 0 ∧
     MainModel.get_stay_in_number (mkState [mkAgent 0 InfectionState.CLEAN 1 (1/2) [],
        mkAgent 1 InfectionState.INFECTED 1 (1/2) []] [] 2) = 0 ∧
     MainModel.get_stay_out_number (mkState [mkAgent 0 InfectionState.CLEAN 1 (1/2) [],
        mkAgent 1 InfectionState.INFECTED 1 (1/2) []] [] 2) = 0) :=
  ⟨by decide, empty_history_counts_zero _ (by decide)⟩

/-- Claim C9: whenever the agents placed on the grid are exactly the agents
in the schedule (as is the case after construction, where every agent is
both positioned on the grid and added to the scheduler), the grid-scanning
count methods agree with the schedule-scanning count functions. -/
theorem grid_counts_eq_schedule_counts (m : ModelState)
    (h : List.Perm (m.grid.filterMap id) m.schedule) :
    MainModel.get_susceptible_number m = get_susceptible_number m ∧
    MainModel.get_infection_number m = get_infected_number m ∧
    MainModel.get_recovered_number m = get_recovered_number m := by
  refine ⟨?_, ?_, ?_⟩ <;>
    exact ((h.filter _).length_eq)

/-- Witness for C9: three agents sit on a five-cell grid and appear in the
schedule in a different order; all three count pairs agree (2 susceptible,
1 infected, 0 recovered). -/
theorem grid_counts_eq_schedule_counts_witness :
    List.Perm
      ((mkState [mkAgent 1 InfectionState.CLEAN 1 (1/2) [],
        mkAgent 0 InfectionState.INFECTED 1 (1/2) [],
        mkAgent 2 InfectionState.CLEAN 1 (1/2) []]
      [some (mkAgent 0 InfectionState.INFECTED 1 (1/2) []), none,
        some (mkAgent 1 InfectionState.CLEAN 1 (1/2) []), none,
        some (mkAgent 2 InfectionState.CLEAN 1 (1/2) [])] 3).grid.filterMap id)
      ((mkState [mkAgent 1 InfectionState.CLEAN 1 (1/2) [],
        mkAgent 0 InfectionState.INFECTED 1 (1/2) [],
        mkAgent 2 InfectionState.CLEAN 1 (1/2) []]
      [some (mkAgent 0 InfectionState.INFECTED 1 (1/2) []), none,
        some (mkAgent 1 InfectionState.CLEAN 1 (1/2) []), none,
        some (mkAgent 2 InfectionState.CLEAN 1 (1/2) [])] 3).schedule) ∧
    (MainModel.get_susceptible_number (mkState [mkAgent 1 InfectionState.CLEAN 1 (1/2) [],
        mkAgent 0 InfectionState.INFECTED 1 (1/2) [],
        mkAgent 2 InfectionState.CLEAN 1 (1/2) []]
      [some (mkAgent 0 InfectionState.INFECTED 1 (1/2) []), none,
        some (mkAgent 1 InfectionState.CLEAN 1 (1/2) []), none,
        some (mkAgent 2 InfectionState.CLEAN 1 (1/2) [])] 3) =
      get_susceptible_number (mkState [mkAgent 1 InfectionState.CLEAN 1 (1/2) [],
        mkAgent 0 InfectionState.INFECTED 1 (1/2) [],
        mkAgent 2 InfectionState.CLEAN 1 (1/2) []]
      [some (mkAgent 0 InfectionState.INFECTED 1 (1/2) []), none,
        some (mkAgent 1 InfectionState.CLEAN 1 (1/2) []), none,
        some (mkAgent 2 InfectionState.CLEAN 1 (1/2) [])] 3) ∧
     MainModel.get_infection_number (mkState [mkAgent 1 InfectionState.CLEAN 1 (1/2) [],
        mkAgent 0 InfectionState.INFECTED 1 (1/2) [],
        mkAgent 2 InfectionState.CLEAN 1 (1/2) []]
      [some (mkAgent 0 InfectionState.INFECTED 1 (1/2) []), none,
        some (mkAgent 1 InfectionState.CLEAN 1 (1/2) []), none,
        some (mkAgent 2 InfectionState.CLEAN 1 (1/2) [])] 3) =
      get_infected_number (mkState [mkAgent 1 InfectionState.CLEAN 1 (1/2) [],
        mkAgent 0 InfectionState.INFECTED 1 (1/2) [],
        mkAgent 2 InfectionState.CLEAN 1 (1/2) []]
      [some (mkAgent 0 InfectionState.INFECTED 1 (1/2) []), none,
        some (mkAgent 1 InfectionState.CLEAN 1 (1/2) []), none,
        some (mkAgent 2 InfectionState.CLEAN 1 (1/2) [])] 3) ∧
     MainModel.get_recovered_number (mkState [mkAgent 1 InfectionState.CLEAN 1 (1/2) [],
        mkAgent 0 InfectionState.INFECTED 1 (1/2) [],
        mkAgent 2 InfectionState.CLEAN 1 (1/2) []]
      [some (mkAgent 0 InfectionState.INFECTED 1 (1/2) []), none,
        some (mkAgent 1 InfectionState.CLEAN 1 (1/2) []), none,
        some (mkAgent 2 InfectionState.CLEAN 1 (1/2) [])] 3) =
      get_recovered_number (mkState [mkAgent 1 InfectionState.CLEAN 1 (1/2) [],
        mkAgent 0 InfectionState.INFECTED 1 (1/2) [],
        mkAgent 2 InfectionState.CLEAN 1 (1/2) []]
      [some (mkAgent 0 InfectionState.INFECTED 1 (1/2) []), none,
        some (mkAgent 1 InfectionState.CLEAN 1 (1/2) []), none,
        some (mkAgent 2 InfectionState.CLEAN 1 (1/2) [])] 3)) :=
  ⟨List.Perm.swap _ _ _, grid_counts_eq_schedule_counts _ (List.Perm.swap _ _ _)⟩

/-- Constructor parameters with `population_density = 0` on a 2×2 grid
(the zero-population scenario of claim C3), other parameters at
slider-range values. -/
def paramsZeroDensity : Params :=
  { population_density := 0
    death_rate := 1/50
    transfer_rate := 3/10
    initial_infection_rate := 1/50
    width := 2
    height := 2
    government_stringent := 1/2
    government_action_threshold := 3/10
    global_aspiration := 3/10
    recovery_days := 11
    habituation := 1/10
    learning_rate := 1/10 }

/-- Random sources whose every draw is 0 (the left end of the unit
interval: a draw that realises every Bernoulli event with positive
success probability). -/
def rsZero : RandomSources :=
  ⟨fun _ => 0, fun _ => 0⟩

/-- Claim C3 (the code contradicts it): in the model constructed with
`populationDensity = 0` — so `totalPopulation = 0` and the schedule is
empty — the count queries, the history-count queries and the guarded
`MainModel.get_avg_aspiration` all do return 0, and the module-level
`get_average_aspiration` returns 0 (it is the sum of an empty list); but the
average stay-in and go-out probability queries `get_average_stay_in` and
`get_average_go_out` raise (`NameError`: the `enumerate` loop variable `i`
is never bound and `sum(...) / i` is evaluated anyway; there is no
`try/except` around them), embedded as a `none` result — contradicting
"every aggregate query returns 0 instead of raising an error". -/
theorem zero_population_queries :
    (MainModel.init paramsZeroDensity rsZero).map (fun s => s.total_population) = some 0 ∧
    (MainModel.init paramsZeroDensity rsZero).map (fun s => s.schedule) = some [] ∧
    (MainModel.init paramsZeroDensity rsZero).map get_susceptible_number = some 0 ∧
    (MainModel.init paramsZeroDensity rsZero).map get_infected_number = some 0 ∧
    (MainModel.init paramsZeroDensity rsZero).map get_recovered_number = some 0 ∧
    (MainModel.init paramsZeroDensity rsZero).map get_dead_number = some 0 ∧
    (MainModel.init paramsZeroDensity rsZero).map get_stay_in = some 0 ∧
    (MainModel.init paramsZeroDensity rsZero).map get_go_out = some 0 ∧
    (MainModel.init paramsZeroDensity rsZero).map get_average_aspiration = some 0 ∧
    (MainModel.init paramsZeroDensity rsZero).map MainModel.get_avg_aspiration = some 0 ∧
    (MainModel.init paramsZeroDensity rsZero).map MainModel.get_stay_in_number = some 0 ∧
    (MainModel.init paramsZeroDensity rsZero).map MainModel.get_stay_out_number = some 0 ∧
    (MainModel.init paramsZeroDensity rsZero).map MainModel.get_susceptible_number = some 0 ∧
    (MainModel.init paramsZeroDensity rsZero).map MainModel.get_infection_number = some 0 ∧
    (MainModel.init paramsZeroDensity rsZero).map MainModel.get_recovered_number = some 0 ∧
    (MainModel.init paramsZeroDensity rsZero).map MainModel.get_dead_number = some 0 ∧
    (MainModel.init paramsZeroDensity rsZero).map get_average_stay_in = some none ∧
    (MainModel.init paramsZeroDensity rsZero).map get_average_go_out = some none := by
  decide

/-- Claim C4 (the code contradicts it): on a population of 2 agents with
aspirations 1 and 3 and stay-in probabilities 1/2 and 1/4, the arithmetic
means are 2 and 3/8; but `get_average_aspiration` returns the plain sum 4
(it never divides), `MainModel.get_avg_aspiration` returns 4 (it divides by
the final `enumerate` index `n - 1 = 1`, not by `n = 2`), and
`get_average_stay_in` returns 3/4 (same `n - 1` divisor).  On a population
of a single agent `get_average_stay_in` raises (`ZeroDivisionError`, the
divisor `i` is 0) instead of returning that agent's probability. -/
theorem average_queries_divide_by_wrong_count :
    get_average_aspiration (mkState [mkAgent 0 InfectionState.CLEAN 1 (1/2) [],
      mkAgent 1 InfectionState.CLEAN 3 (1/4) []] [] 2) = 4 ∧
    MainModel.get_avg_aspiration (mkState [mkAgent 0 InfectionState.CLEAN 1 (1/2) [],
      mkAgent 1 InfectionState.CLEAN 3 (1/4) []] [] 2) = 4 ∧
    get_average_stay_in (mkState [mkAgent 0 InfectionState.CLEAN 1 (1/2) [],
      mkAgent 1 InfectionState.CLEAN 3 (1/4) []] [] 2) = some (3/4) ∧
    ((4 : ℚ) ≠ (1 + 3) / 2) ∧
    ((3/4 : ℚ) ≠ (1/2 + 1/4) / 2) ∧
    get_average_stay_in (mkState [mkAgent 0 InfectionState.CLEAN 1 (1/2) []] [] 1) = none := by
  refine ⟨?_, ?_, ?_, by norm_num, by norm_num, ?_⟩ <;>
    norm_num [get_average_aspiration, MainModel.get_avg_aspiration,
      get_average_stay_in, mkState, mkAgent]

/-! ## Helper lemmas about the two post-pass checks -/

lemma MainModel.terminationCheck_lockdown (s : ModelState) :
    (MainModel.terminationCheck s).lockdown = s.lockdown := by
  unfold MainModel.terminationCheck; split <;> rfl

lemma MainModel.terminationCheck_grid (s : ModelState) :
    (MainModel.terminationCheck s).grid = s.grid := by
  unfold MainModel.terminationCheck; split <;> rfl

lemma MainModel.terminationCheck_dead (s : ModelState) :
    (MainModel.terminationCheck s).dead_agents_number = s.dead_agents_number := by
  unfold MainModel.terminationCheck; split <;> rfl

lemma MainModel.terminationCheck_total (s : ModelState) :
    (MainModel.terminationCheck s).total_population = s.total_population := by
  unfold MainModel.terminationCheck; split <;> rfl

lemma MainModel.lockdownCheck_grid (s : ModelState) :
    (MainModel.lockdownCheck s).grid = s.grid := by
  unfold MainModel.lockdownCheck; split <;> rfl

lemma MainModel.lockdownCheck_dead (s : ModelState) :
    (MainModel.lockdownCheck s).dead_agents_number = s.dead_agents_number := by
  unfold MainModel.lockdownCheck; split <;> rfl

lemma MainModel.lockdownCheck_total (s : ModelState) :
    (MainModel.lockdownCheck s).total_population = s.total_population := by
  unfold MainModel.lockdownCheck; split <;> rfl

lemma MainModel.lockdownCheck_running (s : ModelState) :
    (MainModel.lockdownCheck s).running = s.running := by
  unfold MainModel.lockdownCheck; split <;> rfl

/-- The lockdown check either leaves the state unchanged or only sets the
`lockdown` flag. -/
lemma MainModel.lockdownCheck_cases (s : ModelState) :
    MainModel.lockdownCheck s = s ∨ MainModel.lockdownCheck s = { s with lockdown := true } := by
  unfold MainModel.lockdownCheck; split
  · exact Or.inr rfl
  · exact Or.inl rfl

/-- The termination check either leaves the state unchanged or only clears
the `running` flag. -/
lemma MainModel.terminationCheck_cases (s : ModelState) :
    MainModel.terminationCheck s = s ∨
    MainModel.terminationCheck s = { s with running := false } := by
  unfold MainModel.terminationCheck; split
  · exact Or.inr rfl
  · exact Or.inl rfl

/-- The value of the `lockdown` flag after the lockdown check: true exactly
when it was already true or the infected fraction strictly exceeds the
threshold. -/
lemma MainModel.lockdownCheck_lockdown (s : ModelState) :
    (MainModel.lockdownCheck s).lockdown
      = (s.lockdown ||
          decide ((MainModel.get_infection_number s : ℚ) / (s.total_population : ℚ)
            > s.government_action_threshold)) := by
  unfold MainModel.lockdownCheck; split
  · next h => simp [h]
  · next h => simp [h]

/-- Claim C1: on every `MainModel.step()` call that completes
(`ok = true`), the lockdown flag after the call equals "it was already true,
or the infected count divided by `totalPopulation` in the post-scheduler
state strictly exceeds `government_action_threshold`" — so in particular it
is set exactly when the threshold is breached; and the flag is sticky: on
every call, completing or raising, a true `lockdown` stays true (no
operation in `step` ever resets it to false). -/
theorem mainModel_step_lockdown (f : ModelState → SchedEffects) (m : ModelState) :
    (m.lockdown = true → (MainModel.step f m).state.lockdown = true) ∧
    ((MainModel.step f m).ok = true →
      (MainModel.step f m).state.lockdown
        = (m.lockdown ||
            decide ((MainModel.get_infection_number (MainModel.stepMid f m) : ℚ)
              / ((MainModel.stepMid f m).total_population : ℚ)
              > (MainModel.stepMid f m).government_action_threshold))) := by
  unfold MainModel.step
  by_cases h1 : MainModel.collectRaises { m with step_counter := m.step_counter + 1 }
  · simp only [h1, if_true]
    exact ⟨fun h => h, fun h => absurd h (by simp)⟩
  · simp only [h1, if_false, Bool.false_eq_true]
    by_cases h2 : (MainModel.applySchedule f
        { m with step_counter := m.step_counter + 1 }).total_population = 0
    · simp only [h2, if_pos]
      exact ⟨fun h => h, fun h => absurd h (by simp)⟩
    · simp only [h2, if_neg, not_false_eq_true]
      have hlock :
          (MainModel.terminationCheck (MainModel.lockdownCheck
            (MainModel.applySchedule f { m with step_counter := m.step_counter + 1 }))).lockdown
          = (m.lockdown ||
              decide ((MainModel.get_infection_number (MainModel.stepMid f m) : ℚ)
                / ((MainModel.stepMid f m).total_population : ℚ)
                > (MainModel.stepMid f m).government_action_threshold)) := by
        rw [MainModel.terminationCheck_lockdown, MainModel.lockdownCheck_lockdown]
        rfl
      exact ⟨fun h => by rw [hlock, h, Bool.true_or], fun _ => hlock⟩

/-- A model state with two infected agents on the grid and in the schedule:
the infected fraction is 1, above the 1/4 threshold of `mkState`. -/
def stateTwoInfected : ModelState :=
  mkState [mkAgent 0 InfectionState.INFECTED 1 (1/2) [],
      mkAgent 1 InfectionState.INFECTED 1 (1/2) []]
    [some (mkAgent 0 InfectionState.INFECTED 1 (1/2) []),
      some (mkAgent 1 InfectionState.INFECTED 1 (1/2) [])] 2

/-- Witness for C1: stickiness applied to a locked-down copy of the
two-infected-agent state, and the trigger equation applied to a completing
step on that state. -/
theorem mainModel_step_lockdown_witness :
    (MainModel.step idPass { stateTwoInfected with lockdown := true }).state.lockdown = true ∧
    (MainModel.step idPass stateTwoInfected).ok = true ∧
    (MainModel.step idPass stateTwoInfected).state.lockdown
      = (stateTwoInfected.lockdown ||
          decide ((MainModel.get_infection_number (MainModel.stepMid idPass stateTwoInfected) : ℚ)
            / ((MainModel.stepMid idPass stateTwoInfected).total_population : ℚ)
            > (MainModel.stepMid idPass stateTwoInfected).government_action_threshold)) :=
  ⟨(mainModel_step_lockdown idPass { stateTwoInfected with lockdown := true }).1 rfl,
    by decide,
    (mainModel_step_lockdown idPass stateTwoInfected).2 (by decide)⟩

/-- Claim C2: the three population counts read by the termination check are
unchanged between the post-scheduler state and the end of a completing
`step()` call (the two checks only touch flags), so "the counts at the end
of the call" and "the counts at the check" coincide; if their sum equals
`totalPopulation`, `running` is set to false on that call; and `running` is
sticky: no branch of `step` ever sets a false `running` back to true. -/
theorem mainModel_step_termination (f : ModelState → SchedEffects) (m : ModelState) :
    (m.running = false → (MainModel.step f m).state.running = false) ∧
    ((MainModel.step f m).ok = true →
      (MainModel.get_recovered_number (MainModel.step f m).state
          = MainModel.get_recovered_number (MainModel.stepMid f m) ∧
        MainModel.get_dead_number (MainModel.step f m).state
          = MainModel.get_dead_number (MainModel.stepMid f m) ∧
        MainModel.get_susceptible_number (MainModel.step f m).state
          = MainModel.get_susceptible_number (MainModel.stepMid f m) ∧
        (MainModel.step f m).state.total_population
          = (MainModel.stepMid f m).total_population) ∧
      (MainModel.get_recovered_number (MainModel.stepMid f m)
          + MainModel.get_dead_number (MainModel.stepMid f m)
          + MainModel.get_susceptible_number (MainModel.stepMid f m)
          = (MainModel.stepMid f m).total_population →
        (MainModel.step f m).state.running = false)) := by
  unfold MainModel.step
  by_cases h1 : MainModel.collectRaises { m with step_counter := m.step_counter + 1 }
  · simp only [h1, if_true]
    exact ⟨fun h => h, fun h => absurd h (by simp)⟩
  · simp only [h1, if_false, Bool.false_eq_true]
    by_cases h2 : (MainModel.applySchedule f
        { m with step_counter := m.step_counter + 1 }).total_population = 0
    · simp only [h2, if_pos]
      exact ⟨fun h => h, fun h => absurd h (by simp)⟩
    · simp only [h2, if_neg, not_false_eq_true]
      constructor
      · intro hr
        rcases MainModel.terminationCheck_cases (MainModel.lockdownCheck
            (MainModel.applySchedule f { m with step_counter := m.step_counter + 1 })) with
          hc | hc
        · rw [hc, MainModel.lockdownCheck_running]
          exact hr
        · rw [hc]
      · intro _
        refine ⟨⟨?_, ?_, ?_, ?_⟩, ?_⟩
        · unfold MainModel.get_recovered_number
          rw [MainModel.terminationCheck_grid, MainModel.lockdownCheck_grid]
          rfl
        · unfold MainModel.get_dead_number
          rw [MainModel.terminationCheck_dead, MainModel.lockdownCheck_dead]
          rfl
        · unfold MainModel.get_susceptible_number
          rw [MainModel.terminationCheck_grid, MainModel.lockdownCheck_grid]
          rfl
        · rw [MainModel.terminationCheck_total, MainModel.lockdownCheck_total]
          rfl
        · intro hsum
          have hcond : MainModel.get_recovered_number (MainModel.lockdownCheck
                  (MainModel.applySchedule f { m with step_counter := m.step_counter + 1 }))
                + MainModel.get_dead_number (MainModel.lockdownCheck
                  (MainModel.applySchedule f { m with step_counter := m.step_counter + 1 }))
                + MainModel.get_susceptible_number (MainModel.lockdownCheck
                  (MainModel.applySchedule f { m with step_counter := m.step_counter + 1 }))
              = (MainModel.lockdownCheck
                  (MainModel.applySchedule f
                    { m with step_counter := m.step_counter + 1 })).total_population := by
            unfold MainModel.get_recovered_number MainModel.get_susceptible_number
              MainModel.get_dead_number
            rw [MainModel.lockdownCheck_grid, MainModel.lockdownCheck_dead,
              MainModel.lockdownCheck_total]
            exact hsum
          unfold MainModel.terminationCheck
          rw [if_pos hcond]

/-- A model state with two recovered agents: the virus is eradicated
(recovered 2 + dead 0 + susceptible 0 = totalPopulation 2). -/
def stateTwoRecovered : ModelState :=
  mkState [mkAgent 0 InfectionState.RECOVERED 1 (1/2) [],
      mkAgent 1 InfectionState.RECOVERED 1 (1/2) []]
    [some (mkAgent 0 InfectionState.RECOVERED 1 (1/2) []),
      some (mkAgent 1 InfectionState.RECOVERED 1 (1/2) [])] 2

/-- Witness for C2: stickiness applied to a stopped copy of the
two-recovered-agent state, and the termination trigger applied to a
completing step on that state, whose counts sum to the population. -/
theorem mainModel_step_termination_witness :
    (MainModel.step idPass { stateTwoRecovered with running := false }).state.running = false ∧
    (MainModel.step idPass stateTwoRecovered).ok = true ∧
    (MainModel.step idPass stateTwoRecovered).state.running = false :=
  ⟨(mainModel_step_termination idPass { stateTwoRecovered with running := false }).1 rfl,
    by decide,
    ((mainModel_step_termination idPass stateTwoRecovered).2 (by decide)).2 (by decide)⟩

/-- Claim C8: every call to `MainModel.step()` — for every admissible
scheduler pass and whether the call completes or raises — leaves all fifteen
global parameter fields unchanged; the only Controller fields the body even
mentions mutably are `step_counter`, `lockdown`, `running`, and (through the
scheduler pass) the agents, `dead_agents_number` and the metrics lists. -/
theorem mainModel_step_preserves_parameters (f : ModelState → SchedEffects) (m : ModelState) :
    (MainModel.step f m).state.population_density = m.population_density ∧
    (MainModel.step f m).state.death_rate = m.death_rate ∧
    (MainModel.step f m).state.transfer_rate = m.transfer_rate ∧
    (MainModel.step f m).state.initial_infection_rate = m.initial_infection_rate ∧
    (MainModel.step f m).state.recovery_days = m.recovery_days ∧
    (MainModel.step f m).state.government_action_threshold = m.government_action_threshold ∧
    (MainModel.step f m).state.government_stringent = m.government_stringent ∧
    (MainModel.step f m).state.global_aspiration = m.global_aspiration ∧
    (MainModel.step f m).state.habituation = m.habituation ∧
    (MainModel.step f m).state.learning_rate = m.learning_rate ∧
    (MainModel.step f m).state.quarantine_prob = m.quarantine_prob ∧
    (MainModel.step f m).state.action_infection_prob = m.action_infection_prob ∧
    (MainModel.step f m).state.width = m.width ∧
    (MainModel.step f m).state.height = m.height ∧
    (MainModel.step f m).state.total_population = m.total_population := by
  unfold MainModel.step
  by_cases h1 : MainModel.collectRaises { m with step_counter := m.step_counter + 1 }
  · rw [if_pos h1]
    exact ⟨rfl, rfl, rfl, rfl, rfl, rfl, rfl, rfl, rfl, rfl, rfl, rfl, rfl, rfl, rfl⟩
  · rw [if_neg h1]
    by_cases h2 : (MainModel.applySchedule f
        { m with step_counter := m.step_counter + 1 }).total_population = 0
    · rw [if_pos h2]
      exact ⟨rfl, rfl, rfl, rfl, rfl, rfl, rfl, rfl, rfl, rfl, rfl, rfl, rfl, rfl, rfl⟩
    · rw [if_neg h2]
      rcases MainModel.lockdownCheck_cases (MainModel.applySchedule f
          { m with step_counter := m.step_counter + 1 }) with hl | hl <;>
        rw [hl] <;>
        rcases MainModel.terminationCheck_cases _ with ht | ht <;>
        rw [ht] <;>
        exact ⟨rfl, rfl, rfl, rfl, rfl, rfl, rfl, rfl, rfl, rfl, rfl, rfl, rfl, rfl, rfl⟩

/-! ## Fold invariants of the construction loop -/

/-- One placement-loop iteration, when it does not raise, keeps the agent
counter `i` equal to the number of scheduled agents. -/
lemma initCell_i_eq_length (p : Params) (rs : RandomSources) (xy : ℕ × ℕ)
    (st st' : InitState) (h : st.i = st.agents.length)
    (he : initCell p rs st xy = some st') : st'.i = st'.agents.length := by
  unfold initCell at he
  split at he
  · split at he
    · exact absurd he (by simp)
    · obtain rfl := Option.some_inj.mp he
      simp [h]
  · obtain rfl := Option.some_inj.mp he
    simpa using h

/-- The whole placement loop, when it completes, keeps the agent counter
equal to the number of scheduled agents. -/
lemma initFold_i_eq_length (p : Params) (rs : RandomSources) (cells : List (ℕ × ℕ))
    (st st' : InitState) (h : st.i = st.agents.length)
    (he : cells.foldlM (initCell p rs) st = some st') : st'.i = st'.agents.length := by
  induction cells generalizing st with
  | nil =>
      obtain rfl := Option.some_inj.mp he
      exact h
  | cons c t ih =>
      rw [List.foldlM_cons] at he
      cases hx : initCell p rs st c with
      | none => rw [hx] at he; exact absurd he (by simp)
      | some s1 =>
          rw [hx] at he
          exact ih s1 (initCell_i_eq_length p rs c st s1 h hx) he

/-- One placement-loop iteration, when it does not raise, keeps every
scheduled agent's `quarantinestate` at FREE: a placed agent is created
FREE, and the seeded-infection branch (`model.py` line 220) assigns FREE
again. -/
lemma initCell_quarantine_free (p : Params) (rs : RandomSources) (xy : ℕ × ℕ)
    (st st' : InitState)
    (h : st.agents.all (fun a => a.quarantinestate == QuarantineState.FREE) = true)
    (he : initCell p rs st xy = some st') :
    st'.agents.all (fun a => a.quarantinestate == QuarantineState.FREE) = true := by
  unfold initCell at he
  split at he
  · split at he
    · exact absurd he (by simp)
    · obtain rfl := Option.some_inj.mp he
      by_cases hg : rs.glob st.gi < p.initial_infection_rate
      · simp [List.all_append, h, MainAgent.init, hg]
      · simp [List.all_append, h, MainAgent.init, hg]
  · obtain rfl := Option.some_inj.mp he
    exact h

/-- The whole placement loop, when it completes, keeps every scheduled
agent FREE. -/
lemma initFold_quarantine_free (p : Params) (rs : RandomSources) (cells : List (ℕ × ℕ))
    (st st' : InitState)
    (h : st.agents.all (fun a => a.quarantinestate == QuarantineState.FREE) = true)
    (he : cells.foldlM (initCell p rs) st = some st') :
    st'.agents.all (fun a => a.quarantinestate == QuarantineState.FREE) = true := by
  induction cells generalizing st with
  | nil =>
      obtain rfl := Option.some_inj.mp he
      exact h
  | cons c t ih =>
      rw [List.foldlM_cons] at he
      cases hx : initCell p rs st c with
      | none => rw [hx] at he; exact absurd he (by simp)
      | some s1 =>
          rw [hx] at he
          exact ih s1 (initCell_quarantine_free p rs c st s1 h hx) he

/-- One placement-loop iteration driven by two sources whose
Controller-owned streams agree: both iterations raise together (the
`ValueError` depends only on the parameters and on the placement decision),
or both produce states with the same counters, the same number of agents
and the same pattern of occupied cells (the placed agents themselves may
differ, because the infection seeding reads the other, global source). -/
lemma initCell_ctrl_resp (p : Params) (rs1 rs2 : RandomSources)
    (hc : rs1.ctrl = rs2.ctrl) (xy : ℕ × ℕ) (st1 st2 : InitState)
    (hi : st1.i = st2.i) (hci : st1.ci = st2.ci)
    (hlen : st1.agents.length = st2.agents.length)
    (hgrid : st1.grid.map Option.isSome = st2.grid.map Option.isSome) :
    (initCell p rs1 st1 xy = none ∧ initCell p rs2 st2 xy = none) ∨
    ∃ st1' st2', initCell p rs1 st1 xy = some st1' ∧ initCell p rs2 st2 xy = some st2' ∧
      st1'.i = st2'.i ∧ st1'.ci = st2'.ci ∧
      st1'.agents.length = st2'.agents.length ∧
      st1'.grid.map Option.isSome = st2'.grid.map Option.isSome := by
  unfold initCell
  have hcond : (rs1.ctrl st1.ci < p.population_density)
      ↔ (rs2.ctrl st2.ci < p.population_density) := by rw [hc, hci]
  by_cases h : rs2.ctrl st2.ci < p.population_density
  · rw [if_pos (hcond.mpr h), if_pos h]
    by_cases herr : p.initial_infection_rate < 0 ∨ 1 < p.initial_infection_rate
    · rw [if_pos herr, if_pos herr]
      exact Or.inl ⟨rfl, rfl⟩
    · rw [if_neg herr, if_neg herr]
      exact Or.inr ⟨_, _, rfl, rfl, by simp [hi], by simp [hci], by simp [hlen],
        by simp [hgrid]⟩
  · rw [if_neg (fun hh => h (hcond.mp hh)), if_neg h]
    exact Or.inr ⟨_, _, rfl, rfl, hi, by simp [hci], hlen, by simp [hgrid]⟩

/-- The whole placement loop driven by two sources with the same
Controller-owned stream: both runs fail together, or both complete with the
same counters, population size and occupied cells. -/
lemma initFold_ctrl_resp (p : Params) (rs1 rs2 : RandomSources)
    (hc : rs1.ctrl = rs2.ctrl) (cells : List (ℕ × ℕ)) (st1 st2 : InitState)
    (hi : st1.i = st2.i) (hci : st1.ci = st2.ci)
    (hlen : st1.agents.length = st2.agents.length)
    (hgrid : st1.grid.map Option.isSome = st2.grid.map Option.isSome) :
    (cells.foldlM (initCell p rs1) st1 = none ∧ cells.foldlM (initCell p rs2) st2 = none) ∨
    ∃ st1' st2', cells.foldlM (initCell p rs1) st1 = some st1' ∧
      cells.foldlM (initCell p rs2) st2 = some st2' ∧
      st1'.i = st2'.i ∧ st1'.ci = st2'.ci ∧
      st1'.agents.length = st2'.agents.length ∧
      st1'.grid.map Option.isSome = st2'.grid.map Option.isSome := by
  induction cells generalizing st1 st2 with
  | nil => exact Or.inr ⟨st1, st2, rfl, rfl, hi, hci, hlen, hgrid⟩
  | cons c t ih =>
      rw [List.foldlM_cons, List.foldlM_cons]
      rcases initCell_ctrl_resp p rs1 rs2 hc c st1 st2 hi hci hlen hgrid with
        ⟨h1, h2⟩ | ⟨s1, s2, h1, h2, e1, e2, e3, e4⟩
      · rw [h1, h2]
        exact Or.inl ⟨rfl, rfl⟩
      · rw [h1, h2]
        exact ih s1 s2 e1 e2 e3 e4

/-- A 1×1 grid that a single agent certainly occupies
(`population_density = 1`) and where the seeding succeeds for every
admissible draw (`initial_infection_rate = 1`: every uniform draw in
[0, 1) is below 1, and the weights `p = [0, 1]` are valid for numpy). -/
def paramsOneCell : Params :=
  { population_density := 1
    death_rate := 0
    transfer_rate := 1
    initial_infection_rate := 1
    width := 1
    height := 1
    government_stringent := 1
    government_action_threshold := 1
    global_aspiration := 1
    recovery_days := 11
    habituation := 0
    learning_rate := 0 }

/-- The rational 1/2, written as an explicit numerator/denominator pair
rather than as the division `1 / 2`, so that comparisons against it can be
evaluated by `decide` (kernel reduction of `Rat` division stalls, while the
normal-form constructor compares directly). -/
def half : ℚ := ⟨1, 2, by decide, by decide⟩

/-- The 1×1-grid parameters with `initial_infection_rate = 1/2`: an
in-range rate for which different admissible global draws genuinely give
different seeding outcomes. -/
def paramsOneCellHalfRate : Params :=
  { paramsOneCell with initial_infection_rate := half }

/-- Random sources with the same Controller-owned stream as `rsZero` but a
different global numpy stream: every global draw is 1/2, an admissible
value of a uniform draw on [0, 1). -/
def rsGlobHalf : RandomSources :=
  ⟨fun _ => 0, fun _ => half⟩

/-- Claim C5 (the code contradicts it): two constructions from the same
parameters (`initial_infection_rate = 1/2`) whose Controller-owned streams
(`self.random`) are identical draw by draw, but whose global numpy streams
differ — drawing 0 and 1/2 respectively, both admissible values of a
uniform draw on [0, 1) — produce different initial states: on the 1×1 grid
the placed agent is seeded INFECTED under the first global stream
(0 < 1/2) and left CLEAN under the second (1/2 is not below 1/2), because
the infection seeding draws `np.random.choice` from the global numpy
source (`model.py` line 217), not from the Controller-owned source. -/
theorem init_not_determined_by_ctrl_source :
    rsZero.ctrl = rsGlobHalf.ctrl ∧
    (MainModel.init paramsOneCellHalfRate rsZero).map
        (fun s => s.schedule.map (fun a => a.infectionstate))
      ≠ (MainModel.init paramsOneCellHalfRate rsGlobHalf).map
        (fun s => s.schedule.map (fun a => a.infectionstate)) :=
  ⟨rfl, by decide⟩

/-- Claim C5 amended: only the agent placement is determined by the
Controller-owned source.  For every pair of source assignments with equal
Controller-owned streams, the two constructions either both fail or both
succeed, and on success the models have the same `total_population`, the
same number of scheduled agents and the same pattern of occupied grid
cells; the seeded infections may still differ (they read the separate
global numpy source). -/
theorem init_placement_determined_by_ctrl_source (p : Params) (rs1 rs2 : RandomSources)
    (hc : rs1.ctrl = rs2.ctrl) :
    (MainModel.init p rs1).isSome = (MainModel.init p rs2).isSome ∧
    (MainModel.init p rs1).map (fun s => s.total_population)
      = (MainModel.init p rs2).map (fun s => s.total_population) ∧
    (MainModel.init p rs1).map (fun s => s.schedule.length)
      = (MainModel.init p rs2).map (fun s => s.schedule.length) ∧
    (MainModel.init p rs1).map (fun s => s.grid.map Option.isSome)
      = (MainModel.init p rs2).map (fun s => s.grid.map Option.isSome) := by
  unfold MainModel.init
  rcases initFold_ctrl_resp p rs1 rs2 hc (gridCoords p.width p.height)
      ⟨[], [], 0, 0, 0⟩ ⟨[], [], 0, 0, 0⟩ rfl rfl rfl rfl with
    ⟨h1, h2⟩ | ⟨s1, s2, h1, h2, e1, e2, e3, e4⟩
  · rw [h1, h2]
    exact ⟨rfl, rfl, rfl, rfl⟩
  · rw [h1, h2]
    refine ⟨rfl, ?_, ?_, ?_⟩ <;> simp [e1, e3, e4]

/-- Witness for the amended C5: applied to the 1×1-grid parameters and the
two sources sharing the all-zero Controller-owned stream. -/
theorem init_placement_determined_by_ctrl_source_witness :
    rsZero.ctrl = rsGlobHalf.ctrl ∧
    ((MainModel.init paramsOneCellHalfRate rsZero).isSome
        = (MainModel.init paramsOneCellHalfRate rsGlobHalf).isSome ∧
      (MainModel.init paramsOneCellHalfRate rsZero).map (fun s => s.total_population)
        = (MainModel.init paramsOneCellHalfRate rsGlobHalf).map (fun s => s.total_population) ∧
      (MainModel.init paramsOneCellHalfRate rsZero).map (fun s => s.schedule.length)
        = (MainModel.init paramsOneCellHalfRate rsGlobHalf).map (fun s => s.schedule.length) ∧
      (MainModel.init paramsOneCellHalfRate rsZero).map (fun s => s.grid.map Option.isSome)
        = (MainModel.init paramsOneCellHalfRate rsGlobHalf).map
            (fun s => s.grid.map Option.isSome)) :=
  ⟨rfl, init_placement_determined_by_ctrl_source paramsOneCellHalfRate rsZero rsGlobHalf rfl⟩

/-- Claim C6 (the code contradicts it): under the all-zero random sources —
whose every draw is 0, so that any Bernoulli(`quarantine_prob` = 0.3)
sample taken from either source at any point would succeed and produce
QUARANTINE — the agent seeded as infected during construction nevertheless
has `quarantinestate = FREE`: `model.py` line 220 assigns FREE
deterministically to seeded infections and consumes no quarantine draw at
all. -/
theorem init_seeded_infected_quarantine_not_sampled :
    (MainModel.init paramsOneCell rsZero).map
        (fun s => s.schedule.map (fun a => (a.infectionstate, a.quarantinestate)))
      = some [(InfectionState.INFECTED, QuarantineState.FREE)] ∧
    (MainModel.init paramsOneCell rsZero).map (fun s => s.quarantine_prob) = some (3/10) ∧
    ((0 : ℚ) < 3/10) :=
  ⟨by decide, rfl, by norm_num⟩

/-- Claim C6 amended: in every successfully constructed model, every
scheduled agent — in particular every agent seeded as infected during
initialization — has `quarantinestate = FREE`; the construction never
samples Bernoulli(`quarantineProb`).  (Quarantine sampling at infection
onset during a tick happens in the per-step agent code, which is outside
the sources here.) -/
theorem init_quarantinestate_always_free (p : Params) (rs : RandomSources) :
    Option.all
      (fun s => s.schedule.all (fun a => a.quarantinestate == QuarantineState.FREE))
      (MainModel.init p rs) = true := by
  unfold MainModel.init
  cases hf : (gridCoords p.width p.height).foldlM (initCell p rs)
      (⟨[], [], 0, 0, 0⟩ : InitState) with
  | none => rfl
  | some st =>
      show st.agents.all (fun a => a.quarantinestate == QuarantineState.FREE) = true
      exact initFold_quarantine_free p rs (gridCoords p.width p.height)
        ⟨[], [], 0, 0, 0⟩ st rfl hf

/-- Parameters with `population_density = 2`, outside the documented range
[0, 1] (every other field in range — in particular
`initial_infection_rate = 0`, so the numpy call's weights are valid). -/
def paramsDensityTwo : Params :=
  { population_density := 2
    death_rate := 0
    transfer_rate := 1
    initial_infection_rate := 0
    width := 2
    height := 2
    government_stringent := 1
    government_action_threshold := 1
    global_aspiration := 1
    recovery_days := 11
    habituation := 0
    learning_rate := 0 }

/-- Claim C7 (the code contradicts it): `MainModel.__init__` performs no
validation of its own, so construction with `population_density = 2` —
outside [0, 1] — does not fail: it completes normally, places an agent in
all four cells of the 2×2 grid (every draw is below 2) and returns a
running model. -/
theorem init_accepts_out_of_range_density :
    1 < paramsDensityTwo.population_density ∧
    (MainModel.init paramsDensityTwo rsZero).map (fun s => (s.running, s.total_population))
      = some (true, 4) := by
  exact ⟨by decide, by decide⟩

/-- One placement-loop iteration never raises when `initial_infection_rate`
lies in [0, 1]: the numpy weights are then non-negative, so the only error
path is closed. -/
lemma initCell_some_of_rate_in_range (p : Params) (rs : RandomSources)
    (h0 : 0 ≤ p.initial_infection_rate) (h1 : p.initial_infection_rate ≤ 1)
    (st : InitState) (xy : ℕ × ℕ) :
    ∃ st', initCell p rs st xy = some st' := by
  unfold initCell
  by_cases hp : rs.ctrl st.ci < p.population_density
  · rw [if_pos hp]
    have herr : ¬(p.initial_infection_rate < 0 ∨ 1 < p.initial_infection_rate) := by
      push_neg
      exact ⟨h0, h1⟩
    rw [if_neg herr]
    exact ⟨_, rfl⟩
  · rw [if_neg hp]
    exact ⟨_, rfl⟩

/-- The whole placement loop completes when `initial_infection_rate` lies
in [0, 1], whatever the other parameters are. -/
lemma initFold_some_of_rate_in_range (p : Params) (rs : RandomSources)
    (h0 : 0 ≤ p.initial_infection_rate) (h1 : p.initial_infection_rate ≤ 1)
    (cells : List (ℕ × ℕ)) (st : InitState) :
    ∃ st', cells.foldlM (initCell p rs) st = some st' := by
  induction cells generalizing st with
  | nil => exact ⟨st, rfl⟩
  | cons c t ih =>
      obtain ⟨s1, hs1⟩ := initCell_some_of_rate_in_range p rs h0 h1 st c
      obtain ⟨st', hst'⟩ := ih s1
      refine ⟨st', ?_⟩
      rw [List.foldlM_cons, hs1]
      exact hst'

/-- Claim C7 amended: no validation exists in `MainModel.__init__` itself —
an out-of-range `population_density` is accepted and construction completes
normally (the counterexample above) — but construction is not rejected nor
unconditionally total: its only failure is the `ValueError` numpy raises for
an out-of-range `initial_infection_rate` once an agent is placed.  For
every assignment whose `initial_infection_rate` lies in [0, 1] — all other
parameters unconstrained, in range or not — construction succeeds,
returning a running model whose `total_population` equals the number of
scheduled agents. -/
theorem init_no_validation (p : Params) (rs : RandomSources)
    (h0 : 0 ≤ p.initial_infection_rate) (h1 : p.initial_infection_rate ≤ 1) :
    (MainModel.init p rs).isSome = true ∧
    Option.all (fun s => s.running && (s.total_population == s.schedule.length))
      (MainModel.init p rs) = true := by
  obtain ⟨st, hst⟩ := initFold_some_of_rate_in_range p rs h0 h1
    (gridCoords p.width p.height) ⟨[], [], 0, 0, 0⟩
  have hlen : st.i = st.agents.length :=
    initFold_i_eq_length p rs (gridCoords p.width p.height) ⟨[], [], 0, 0, 0⟩ st rfl hst
  unfold MainModel.init
  rw [hst]
  constructor
  · rfl
  · show (true && (st.i == st.agents.length)) = true
    simp [hlen]

/-- Witness for the amended C7: applied to the out-of-range-density,
in-range-infection-rate parameters, where construction succeeds and fills
the grid. -/
theorem init_no_validation_witness :
    (0 : ℚ) ≤ paramsDensityTwo.initial_infection_rate ∧
    paramsDensityTwo.initial_infection_rate ≤ 1 ∧
    ((MainModel.init paramsDensityTwo rsZero).isSome = true ∧
      Option.all (fun s => s.running && (s.total_population == s.schedule.length))
        (MainModel.init paramsDensityTwo rsZero) = true) :=
  ⟨by decide, by decide, init_no_validation paramsDensityTwo rsZero (by decide) (by decide)⟩
